import Mathlib

/-!
Shallow embedding of `src/file_conversion.py`: a directory-scanning batch
file converter (txt/docx to pdf) that also registers itself as a recurring
OS task (Windows Task Scheduler via `schtasks`, or cron via `crontab`).

Conventions of the embedding:
* Strings are Lean `String`s; Python f-strings become `++` concatenations.
* The filesystem and the success of third-party conversion I/O are an
  oracle: `io : String → Bool` says whether converting a given source path
  succeeds (the body of the `try` in `txt_to_pdf` / `docx_to_pdf` raising
  or not); a directory listing is `Option (List String)` (`none` models
  `os.listdir` raising `FileNotFoundError`).
* Logging calls become values of `LogEvent` collected in output lists.
* The OS scheduler stores are explicit values threaded through `run_main`:
  the Windows task store is an association list keyed by task name
  (`schtasks /create ... /f` replaces the entry of that name), the user
  crontab is a list of lines (the source pipes
  `(crontab -l; echo "{cron_job}") | crontab -`, which appends a line).
-/

namespace FileConv

/-- Recurrence unit; `argparse` restricts `--unit` to these three choices. -/
inductive TimeUnit
  | minute
  | hour
  | day
deriving DecidableEq

/-- One diagnostic log line, tagged with its level. -/
inductive LogEvent
  | info (msg : String)
  | warning (msg : String)
  | error (msg : String)
deriving DecidableEq

/-- Embeds Python `f.endswith(extension)`: literal suffix match on the
characters of the file name. -/
def endswith (f extension : String) : Bool :=
  decide (extension.data.length ≤ f.data.length) &&
    decide (f.data.drop (f.data.length - extension.data.length) = extension.data)

/-- Index of the last occurrence of `c` in `l` (Python `str.rfind`),
`none` when absent. -/
def lastIndexOf (l : List Char) (c : Char) : Option Nat :=
  (List.range l.length).foldl (fun acc i => if l[i]? = some c then some i else acc) none

/-- Embeds `os.path.splitext` (POSIX rules): split at the last dot, provided
that dot comes after the last path separator and the base name is not made
of leading dots only up to that dot. -/
def splitext (p : String) : String × String :=
  match lastIndexOf p.data '.' with
  | none => (p, "")
  | some dotIdx =>
    let start : Nat :=
      match lastIndexOf p.data '/' with
      | none => 0
      | some sepIdx => sepIdx + 1
    if start ≤ dotIdx then
      if (List.range' start (dotIdx - start)).any (fun j => decide (p.data[j]? ≠ some '.')) then
        (String.mk (p.data.take dotIdx), String.mk (p.data.drop dotIdx))
      else (p, "")
    else (p, "")

/-- Embeds `check_files(directory, extension)`: filter the directory listing
by literal suffix, logging an informational event when nothing matches.
The listing of `directory` is passed in as `entries`; `directory` itself is
only used in the log message, as in the source. -/
def check_files (directory : String) (entries : List String) (extension : String) :
    List String × List LogEvent :=
  let files := entries.filter (fun f => endswith f extension)
  (files,
    if files = [] then
      [LogEvent.info ("No files with extension " ++ extension ++ " found in " ++ directory)]
    else [])

/-- Embeds `txt_to_pdf(txt_file, pdf_file)`: the whole body is inside a
`try`; on success exactly the PDF output file is produced and an info line
logged, on any exception an error line is logged and nothing is raised. -/
def txt_to_pdf (io : String → Bool) (txt_file pdf_file : String) :
    List String × List LogEvent :=
  if io txt_file then
    ([pdf_file], [LogEvent.info ("Converted " ++ txt_file ++ " → " ++ pdf_file)])
  else
    ([], [LogEvent.error ("Error converting " ++ txt_file ++ " to PDF")])

/-- Embeds `docx_to_pdf(docx_file, pdf_file)`: same try/except shape as
`txt_to_pdf`. -/
def docx_to_pdf (io : String → Bool) (docx_file pdf_file : String) :
    List String × List LogEvent :=
  if io docx_file then
    ([pdf_file], [LogEvent.info ("Converted " ++ docx_file ++ " → " ++ pdf_file)])
  else
    ([], [LogEvent.error ("Error converting " ++ docx_file ++ " to PDF")])

/-- The membership test `(ext, target_format) in conversions` for the
two-key dispatch table `{(".txt", ".pdf"): txt_to_pdf, (".docx", ".pdf"): docx_to_pdf}`. -/
def conversions_has (ext target_format : String) : Bool :=
  decide ((ext = ".txt" ∧ target_format = ".pdf") ∨ (ext = ".docx" ∧ target_format = ".pdf"))

/-- Embeds `convert_file(file_path, target_format)`: split the path with
`splitext`, dispatch on the `(ext, target_format)` key, derive the target
path as `base + target_format`; log a warning when the pair is unsupported. -/
def convert_file (io : String → Bool) (file_path target_format : String) :
    List String × List LogEvent :=
  if (splitext file_path).2 = ".txt" ∧ target_format = ".pdf" then
    txt_to_pdf io file_path ((splitext file_path).1 ++ target_format)
  else if (splitext file_path).2 = ".docx" ∧ target_format = ".pdf" then
    docx_to_pdf io file_path ((splitext file_path).1 ++ target_format)
  else
    ([], [LogEvent.warning ("Conversion from " ++ (splitext file_path).2 ++ " to "
            ++ target_format ++ " is not supported.")])

/-- The loop `for file in files: convert_file(os.path.join(args.dir, file), args.format)`
in `main`, collecting each file's (outputs, logs) outcome in order.
`os.path.join` is modelled as POSIX `dir ++ "/" ++ file`. -/
def run_batch (io : String → Bool) (dir target : String) (files : List String) :
    List (List String × List LogEvent) :=
  files.map (fun f => convert_file io (dir ++ "/" ++ f) target)

/-- All output files produced by a batch, in order. -/
def outputsOf (results : List (List String × List LogEvent)) : List String :=
  (results.map Prod.fst).flatten

/-- All log events produced by a batch, in order. -/
def logsOf (results : List (List String × List LogEvent)) : List LogEvent :=
  (results.map Prod.snd).flatten

/-- Whether a log event is at warning level. -/
def isWarn : LogEvent → Bool
  | LogEvent.warning _ => true
  | _ => false

/-- Number of warning-level events a batch logged. -/
def warnOf (results : List (List String × List LogEvent)) : Nat :=
  ((logsOf results).filter isWarn).length

/-- Number of scanned files whose `(splitext extension, target)` pair has no
registered converter. -/
def unsupportedCount (dir target : String) (files : List String) : Nat :=
  (files.filter (fun f => !conversions_has (splitext (dir ++ "/" ++ f)).2 target)).length

/-- Embeds line 92 of the source: the five cron time fields derived from
`(frequency, unit)`. -/
def cron_time (frequency : Int) (u : TimeUnit) : String :=
  match u with
  | TimeUnit.minute => "*/" ++ toString frequency ++ " * * * *"
  | TimeUnit.hour => "0 */" ++ toString frequency ++ " * * *"
  | TimeUnit.day => "0 0 */" ++ toString frequency ++ " * *"

/-- Embeds the `cron_job` f-string of `schedule_task_linux`: time fields
followed by the re-invocation command. -/
def cron_job (script_path directory extension target_format : String)
    (frequency : Int) (u : TimeUnit) : String :=
  cron_time frequency u ++ " python3 " ++ script_path ++ " --dir \"" ++ directory
    ++ "\" --ext \"" ++ extension ++ "\" --format \"" ++ target_format ++ "\" --scheduled"

/-- Embeds the `python_command` f-string of `schedule_task_windows` (the
command `schtasks` registers via `/tr`); the `\"` escapes of the source are
literal backslash-quote characters in the string. -/
def python_command (script_path directory extension target_format : String) : String :=
  "python " ++ script_path ++ " --dir \\\"" ++ directory ++ "\\\" --ext \\\"" ++ extension
    ++ "\\\" --format \\\"" ++ target_format ++ "\\\" --scheduled"

/-- The `schedule_unit` dict `{"minute": "MINUTE", "hour": "HOURLY", "day": "DAILY"}`. -/
def schedule_unit : TimeUnit → String
  | TimeUnit.minute => "MINUTE"
  | TimeUnit.hour => "HOURLY"
  | TimeUnit.day => "DAILY"

/-- The full `schtasks /create` command line of `schedule_task_windows`. -/
def schedule_command (script_path directory extension target_format : String)
    (frequency : Int) (u : TimeUnit) : String :=
  "schtasks /create /tn \"FileConversionTask\" /tr \""
    ++ python_command script_path directory extension target_format
    ++ "\" /sc " ++ schedule_unit u ++ " /mo " ++ toString frequency ++ " /f"

/-- Modelled from the spec: the Windows Task Scheduler store behind
`schtasks /create ... /f` (not part of this repository) is an association
list keyed by task name, and `/f` replaces any existing task of that name
(spec §4.4: "registers/overwrites a named recurring task"). -/
def schtasks_create_force (store : List (String × String)) (name cmd : String) :
    List (String × String) :=
  store.filter (fun q => decide (q.1 ≠ name)) ++ [(name, cmd)]

/-- Modelled from the spec: the user crontab behind
`(crontab -l; echo "{cron_job}") | crontab -` (an external store) is a list
of lines, and the pipeline appends one line (spec §4.4: "appends a
recurrence-table line"). -/
def crontab_append (ct : List String) (job : String) : List String :=
  ct ++ [job]

/-- Embeds `schedule_task_windows`: its effect on the Windows task store is
registering `schedule_command` under the constant name `FileConversionTask`,
overwriting any previous registration. -/
def schedule_task_windows (store : List (String × String))
    (script_path directory extension target_format : String)
    (frequency : Int) (u : TimeUnit) : List (String × String) :=
  schtasks_create_force store "FileConversionTask"
    (schedule_command script_path directory extension target_format frequency u)

/-- Embeds `schedule_task_linux`: its effect on the crontab is appending the
`cron_job` line. -/
def schedule_task_linux (ct : List String)
    (script_path directory extension target_format : String)
    (frequency : Int) (u : TimeUnit) : List String :=
  crontab_append ct (cron_job script_path directory extension target_format frequency u)

/-- The value of `platform.system()` as `main` discriminates it. -/
inductive OSKind
  | windows
  | linux
  | other
deriving DecidableEq

/-- The parsed command-line arguments of `parse_arguments`. -/
structure Args where
  dir : String
  ext : String
  format : String
  frequency : Int
  unit : TimeUnit
  scheduled : Bool

/-- The ambient environment of one invocation: the listing of `args.dir`
(`none` when `os.listdir` raises), the conversion-I/O oracle, the running
OS, and `os.path.abspath(__file__)`. -/
structure Env where
  listing : Option (List String)
  io : String → Bool
  os : OSKind
  script_path : String

/-- Observable result of a completed invocation of `main`. -/
structure MainResult where
  outputs : List String
  logs : List LogEvent
  win_tasks : List (String × String)
  crontab : List String
deriving DecidableEq

/-- The batch phase of `main` (the `if args.scheduled:` block). The call
`check_files(args.dir, args.ext)` is not inside any `try`, so a missing or
unlistable directory propagates `FileNotFoundError` out of the phase. -/
def batch_phase (env : Env) (args : Args) : Except String (List String × List LogEvent) :=
  if args.scheduled then
    match env.listing with
    | none => Except.error "FileNotFoundError"
    | some entries =>
      let scanned := check_files args.dir entries args.ext
      let results := run_batch env.io args.dir args.format scanned.1
      Except.ok (outputsOf results, scanned.2 ++ logsOf results)
  else
    Except.ok ([], [LogEvent.info "Script ran manually, scheduling task."])

/-- Embeds `main`: batch phase first (uncaught exceptions abort the whole
invocation), then the platform-dispatched scheduling phase, which on an
unrecognized OS only logs a warning. `w0` and `c0` are the OS scheduler
stores before the invocation. -/
def run_main (env : Env) (w0 : List (String × String)) (c0 : List String) (args : Args) :
    Except String MainResult :=
  match batch_phase env args with
  | Except.error e => Except.error e
  | Except.ok br =>
    match env.os with
    | OSKind.windows =>
      Except.ok ⟨br.1, br.2 ++ [LogEvent.info "Scheduled task in Windows"],
        schedule_task_windows w0 env.script_path args.dir args.ext args.format
          args.frequency args.unit, c0⟩
    | OSKind.linux =>
      Except.ok ⟨br.1, br.2 ++ [LogEvent.info "Scheduled task in Linux"], w0,
        schedule_task_linux c0 env.script_path args.dir args.ext args.format
          args.frequency args.unit⟩
    | OSKind.other =>
      Except.ok ⟨br.1, br.2 ++ [LogEvent.warning "Unsupported operating system."], w0, c0⟩

/-- `needle` occurs as a contiguous substring of `hay`. -/
def occursIn (needle hay : String) : Prop :=
  ∃ x y, hay = x ++ needle ++ y

/-- Executable contiguous-substring test, used to evaluate occurrence
claims at concrete inputs. -/
def strContains (hay needle : String) : Bool :=
  (List.range (hay.data.length + 1)).any
    (fun i => decide ((hay.data.drop i).take needle.data.length = needle.data))

/-! ### Helper lemmas -/

theorem occursIn_of_data (n h : String) (x y : List Char)
    (he : h.data = x ++ n.data ++ y) : occursIn n h :=
  ⟨⟨x⟩, ⟨y⟩, String.ext (by rw [String.data_append, String.data_append]; exact he)⟩

theorem convert_file_unsupported (io : String → Bool) (p t : String)
    (h : conversions_has (splitext p).2 t = false) :
    convert_file io p t = ([], [LogEvent.warning ("Conversion from " ++ (splitext p).2
      ++ " to " ++ t ++ " is not supported.")]) := by
  unfold conversions_has at h
  rw [decide_eq_false_iff_not] at h
  unfold convert_file
  rw [if_neg (fun hc => h (Or.inl hc)), if_neg (fun hc => h (Or.inr hc))]

theorem convert_file_supported (io : String → Bool) (p t : String)
    (h : conversions_has (splitext p).2 t = true) :
    convert_file io p t = txt_to_pdf io p ((splitext p).1 ++ t) := by
  unfold conversions_has at h
  rw [decide_eq_true_eq] at h
  unfold convert_file
  rcases h with h | h
  · rw [if_pos h]
  · have hne : ¬((splitext p).2 = ".txt" ∧ t = ".pdf") := by
      rintro ⟨h1, _⟩
      rw [h.1] at h1
      exact absurd h1 (by decide)
    rw [if_neg hne, if_pos h]
    rfl

theorem convert_warn_length (io : String → Bool) (p t : String) :
    ((convert_file io p t).2.filter isWarn).length
      = if conversions_has (splitext p).2 t then 0 else 1 := by
  cases h : conversions_has (splitext p).2 t
  · rw [convert_file_unsupported io p t h]
    simp [isWarn]
  · rw [convert_file_supported io p t h]
    unfold txt_to_pdf
    cases hio : io p <;> simp [isWarn]

theorem convert_out_length (io : String → Bool) (p t : String)
    (h : conversions_has (splitext p).2 t = true) (hio : io p = true) :
    (convert_file io p t).1.length = 1 := by
  rw [convert_file_supported io p t h]
  unfold txt_to_pdf
  rw [hio]
  rfl

theorem endswith_empty (f : String) : endswith f "" = true := by
  unfold endswith
  have hd : ("" : String).data = [] := rfl
  rw [hd]
  simp [List.drop_length]

/-! ### Claims -/

/-- C1, counterexample: the command line that the installer embeds for the
re-invocation (Windows `python_command`, POSIX `cron_job`) never mentions the
program's required `--frequency` and `--unit` options, so it does not re-invoke
the program with the frequency and unit of the current invocation. -/
theorem c1_counterexample :
    strContains (python_command "/s.py" "/d" ".txt" ".pdf") "--frequency" = false ∧
    strContains (python_command "/s.py" "/d" ".txt" ".pdf") "--unit" = false ∧
    strContains (cron_job "/s.py" "/d" ".txt" ".pdf" 5 TimeUnit.minute) "--frequency" = false ∧
    strContains (cron_job "/s.py" "/d" ".txt" ".pdf" 5 TimeUnit.minute) "--unit" = false := by
  decide

/-- C1, amended: for every invocation, both backends build a command line
that re-invokes the program with the same directory, source extension and
target format as the current invocation, plus the scheduled-invocation
marker — but the frequency and unit are not forwarded. -/
theorem c1_prop (sp d e f : String) (freq : Int) (u : TimeUnit) :
    occursIn ("python " ++ sp) (python_command sp d e f) ∧
    occursIn ("--dir \\\"" ++ d ++ "\\\"") (python_command sp d e f) ∧
    occursIn ("--ext \\\"" ++ e ++ "\\\"") (python_command sp d e f) ∧
    occursIn ("--format \\\"" ++ f ++ "\\\"") (python_command sp d e f) ∧
    occursIn "--scheduled" (python_command sp d e f) ∧
    occursIn ("python3 " ++ sp) (cron_job sp d e f freq u) ∧
    occursIn ("--dir \"" ++ d ++ "\"") (cron_job sp d e f freq u) ∧
    occursIn ("--ext \"" ++ e ++ "\"") (cron_job sp d e f freq u) ∧
    occursIn ("--format \"" ++ f ++ "\"") (cron_job sp d e f freq u) ∧
    occursIn "--scheduled" (cron_job sp d e f freq u) := by
  refine ⟨?_, ?_, ?_, ?_, ?_, ?_, ?_, ?_, ?_, ?_⟩
  · apply occursIn_of_data _ _ ([] : List Char)
      ((" --dir \\\"" ++ d ++ "\\\" --ext \\\"" ++ e ++ "\\\" --format \\\"" ++ f
        ++ "\\\" --scheduled" : String).data)
    simp [python_command, String.data_append, List.append_assoc]
  · apply occursIn_of_data _ _ (("python " ++ sp ++ " " : String).data)
      ((" --ext \\\"" ++ e ++ "\\\" --format \\\"" ++ f ++ "\\\" --scheduled" : String).data)
    simp [python_command, String.data_append, List.append_assoc]
  · apply occursIn_of_data _ _
      (("python " ++ sp ++ " --dir \\\"" ++ d ++ "\\\" " : String).data)
      ((" --format \\\"" ++ f ++ "\\\" --scheduled" : String).data)
    simp [python_command, String.data_append, List.append_assoc]
  · apply occursIn_of_data _ _
      (("python " ++ sp ++ " --dir \\\"" ++ d ++ "\\\" --ext \\\"" ++ e ++ "\\\" " : String).data)
      ((" --scheduled" : String).data)
    simp [python_command, String.data_append, List.append_assoc]
  · apply occursIn_of_data _ _
      (("python " ++ sp ++ " --dir \\\"" ++ d ++ "\\\" --ext \\\"" ++ e ++ "\\\" --format \\\""
        ++ f ++ "\\\" " : String).data) ([] : List Char)
    simp [python_command, String.data_append, List.append_assoc]
  · apply occursIn_of_data _ _ ((cron_time freq u ++ " " : String).data)
      ((" --dir \"" ++ d ++ "\" --ext \"" ++ e ++ "\" --format \"" ++ f
        ++ "\" --scheduled" : String).data)
    simp [cron_job, String.data_append, List.append_assoc]
  · apply occursIn_of_data _ _ ((cron_time freq u ++ " python3 " ++ sp ++ " " : String).data)
      ((" --ext \"" ++ e ++ "\" --format \"" ++ f ++ "\" --scheduled" : String).data)
    simp [cron_job, String.data_append, List.append_assoc]
  · apply occursIn_of_data _ _
      ((cron_time freq u ++ " python3 " ++ sp ++ " --dir \"" ++ d ++ "\" " : String).data)
      ((" --format \"" ++ f ++ "\" --scheduled" : String).data)
    simp [cron_job, String.data_append, List.append_assoc]
  · apply occursIn_of_data _ _
      ((cron_time freq u ++ " python3 " ++ sp ++ " --dir \"" ++ d ++ "\" --ext \"" ++ e
        ++ "\" " : String).data)
      ((" --scheduled" : String).data)
    simp [cron_job, String.data_append, List.append_assoc]
  · apply occursIn_of_data _ _
      ((cron_time freq u ++ " python3 " ++ sp ++ " --dir \"" ++ d ++ "\" --ext \"" ++ e
        ++ "\" --format \"" ++ f ++ "\" " : String).data) ([] : List Char)
    simp [cron_job, String.data_append, List.append_assoc]

/-- C2: on both supported platforms and for every configuration, the command
line embedded in the registered task (the `/tr` payload on Windows, the
command part of the crontab line on POSIX) contains the scheduled-invocation
marker `--scheduled`. -/
theorem c2_prop (sp d e f : String) (freq : Int) (u : TimeUnit) :
    occursIn "--scheduled" (python_command sp d e f) ∧
    occursIn "--scheduled" (cron_job sp d e f freq u) := by
  constructor
  · apply occursIn_of_data _ _
      (("python " ++ sp ++ " --dir \\\"" ++ d ++ "\\\" --ext \\\"" ++ e ++ "\\\" --format \\\""
        ++ f ++ "\\\" " : String).data) ([] : List Char)
    simp [python_command, String.data_append, List.append_assoc]
  · apply occursIn_of_data _ _
      ((cron_time freq u ++ " python3 " ++ sp ++ " --dir \"" ++ d ++ "\" --ext \"" ++ e
        ++ "\" --format \"" ++ f ++ "\" " : String).data) ([] : List Char)
    simp [cron_job, String.data_append, List.append_assoc]

/-- C6: for every positive frequency N, the POSIX backend derives the five
cron time fields as every-N-minutes, every-N-hours at minute 0, or
every-N-days at midnight. -/
theorem c6_prop (n : Int) (h : 0 < n) :
    cron_time n TimeUnit.minute = "*/" ++ toString n ++ " * * * *" ∧
    cron_time n TimeUnit.hour = "0 */" ++ toString n ++ " * * *" ∧
    cron_time n TimeUnit.day = "0 0 */" ++ toString n ++ " * *" :=
  ⟨rfl, rfl, rfl⟩

/-- C6, witness: the spec's concrete instances, frequency 5/minute,
2/hour, 1/day. -/
theorem c6_witness :
    cron_time 5 TimeUnit.minute = "*/5 * * * *" ∧
    cron_time 2 TimeUnit.hour = "0 */2 * * *" ∧
    cron_time 1 TimeUnit.day = "0 0 */1 * *" :=
  ⟨(c6_prop 5 (by decide)).1, (c6_prop 2 (by decide)).2.1,
    (c6_prop 1 (by decide)).2.2⟩

/-- C10: scanning with the empty extension returns every entry of the
directory, since the empty string is a literal suffix of every name. -/
theorem c10_prop (d : String) (entries : List String) :
    (check_files d entries "").1 = entries := by
  unfold check_files
  simp only []
  rw [List.filter_eq_self]
  intro a _
  exact endswith_empty a

/-- C7, counterexample: the name `foo.mytxt` does not end with the literal
suffix `.txt` (its last four characters are `ytxt`), so the Directory
Scanner does not return it when scanning for `.txt` — the claim's example
is false. -/
theorem c7_counterexample :
    endswith "foo.mytxt" ".txt" = false ∧
    (check_files "/d" ["foo.mytxt"] ".txt").1 = [] := by
  decide

/-- C7, amended: the Directory Scanner returns exactly the entries of the
listing whose names end with the extension as a literal suffix (for
example `.txt` matches the name `..txt`, whose splitext extension is
empty), and when nothing matches it returns the empty sequence and logs an
informational event. -/
theorem c7_prop (d : String) (entries : List String) (extension : String) :
    (∀ f, f ∈ (check_files d entries extension).1
      ↔ f ∈ entries ∧ endswith f extension = true) ∧
    ((check_files d entries extension).1 = [] →
      (check_files d entries extension).2
        = [LogEvent.info ("No files with extension " ++ extension ++ " found in " ++ d)]) ∧
    (check_files "/d" ["..txt"] ".txt").1 = ["..txt"] := by
  refine ⟨?_, ?_, by decide⟩
  · intro f
    unfold check_files
    simp only []
    exact List.mem_filter
  · intro h
    unfold check_files at h ⊢
    simp only [] at h ⊢
    rw [if_pos h]

/-- C7, witness: on a listing with no `.txt` match the scanner returns
nothing and logs the informational event. -/
theorem c7_witness :
    (check_files "/d" ["x.md"] ".txt").2
      = [LogEvent.info ("No files with extension " ++ ".txt" ++ " found in " ++ "/d")] :=
  (c7_prop "/d" ["x.md"] ".txt").2.1 (by decide)

/-- C9, counterexample: `foo.mytxt` is not an example of the claimed
situation, because the Directory Scanner never selects it when scanning
for `.txt` — `.txt` is not a literal suffix of `foo.mytxt`. -/
theorem c9_counterexample :
    endswith "foo.mytxt" ".txt" = false ∧
    ("foo.mytxt" ∈ (check_files "/dir" ["foo.mytxt"] ".txt").1 → False) := by
  decide

/-- C9, amended: a file whose splitext-derived extension together with the
requested target format is not a registered dispatch key is always skipped
as unsupported — no output is produced, only a warning is logged — even if
the scanner selected the file by literal suffix (for example `..txt` when
scanning for `.txt`: selected, but its splitext extension is empty). -/
theorem c9_prop (io : String → Bool) (path target : String)
    (h : conversions_has (splitext path).2 target = false) :
    (convert_file io path target).1 = [] ∧
    (convert_file io path target).2
      = [LogEvent.warning ("Conversion from " ++ (splitext path).2 ++ " to " ++ target
          ++ " is not supported.")] := by
  rw [convert_file_unsupported io path target h]
  exact ⟨rfl, rfl⟩

/-- C9, witness: `..txt` is selected by the scanner for `.txt`, its
splitext extension is empty, and converting it produces no output and one
unsupported-conversion warning. -/
theorem c9_witness :
    endswith "..txt" ".txt" = true ∧
    ((convert_file (fun _ => true) "/d/..txt" ".pdf").1 = [] ∧
      (convert_file (fun _ => true) "/d/..txt" ".pdf").2
        = [LogEvent.warning ("Conversion from " ++ (splitext "/d/..txt").2 ++ " to "
            ++ ".pdf" ++ " is not supported.")]) :=
  ⟨by decide, c9_prop (fun _ => true) "/d/..txt" ".pdf" (by decide)⟩

/-- C3, counterexample: in a scheduled invocation on a missing directory,
`main` does not reach the scheduling step and does not return a normal
result — the `FileNotFoundError` from `os.listdir` crosses the Entry Point
boundary (and the process therefore exits nonzero). -/
theorem c3_counterexample :
    run_main (Env.mk none (fun _ => false) OSKind.linux "/s.py") [] []
      (Args.mk "/missing" ".txt" ".pdf" 5 TimeUnit.minute true)
      = Except.error "FileNotFoundError" := rfl

/-- C3, amended: when the configured directory does not exist or is not
listable during a scheduled run, the failure is fatal to the whole
invocation: the uncaught exception aborts `main` before the scheduling
step, crosses the Entry Point boundary, and the process exits nonzero. -/
theorem c3_prop (env : Env) (w0 : List (String × String)) (c0 : List String)
    (args : Args) (h1 : args.scheduled = true) (h2 : env.listing = none) :
    run_main env w0 c0 args = Except.error "FileNotFoundError" := by
  unfold run_main batch_phase
  rw [h1, h2]
  rfl

/-- C3, witness: the amended behavior at a concrete scheduled invocation
with an unavailable directory. -/
theorem c3_witness :
    run_main (Env.mk none (fun _ => true) OSKind.windows "/w/s.py") [] []
      (Args.mk "/gone" ".docx" ".pdf" 2 TimeUnit.hour true)
      = Except.error "FileNotFoundError" :=
  c3_prop (Env.mk none (fun _ => true) OSKind.windows "/w/s.py") [] []
    (Args.mk "/gone" ".docx" ".pdf" 2 TimeUnit.hour true) rfl rfl

/-- C4, counterexample: the POSIX backend is not idempotent — running the
installer twice with the same configuration appends the cron line twice,
leaving the crontab different from running it once. -/
theorem c4_counterexample :
    schedule_task_linux
        (schedule_task_linux [] "/s.py" "/d" ".txt" ".pdf" 5 TimeUnit.minute)
        "/s.py" "/d" ".txt" ".pdf" 5 TimeUnit.minute
      ≠ schedule_task_linux [] "/s.py" "/d" ".txt" ".pdf" 5 TimeUnit.minute := by
  decide

/-- C4, amended: only the Windows backend is idempotent — `schtasks ... /f`
replaces the registration under the fixed task name, so installing twice
equals installing once; the POSIX backend appends a crontab line each run,
so installing twice adds two copies of the line. -/
theorem c4_prop :
    (∀ (store : List (String × String)) (sp d e f : String) (freq : Int) (u : TimeUnit),
      schedule_task_windows (schedule_task_windows store sp d e f freq u) sp d e f freq u
        = schedule_task_windows store sp d e f freq u) ∧
    (∀ (ct : List String) (sp d e f : String) (freq : Int) (u : TimeUnit),
      schedule_task_linux (schedule_task_linux ct sp d e f freq u) sp d e f freq u
        = ct ++ [cron_job sp d e f freq u, cron_job sp d e f freq u]) := by
  constructor
  · intro store sp d e f freq u
    unfold schedule_task_windows schtasks_create_force
    rw [List.filter_append]
    simp
  · intro ct sp d e f freq u
    unfold schedule_task_linux crontab_append
    rw [List.append_assoc]
    rfl

/-- C8: on an unrecognized platform, `main` only logs an unsupported-OS
warning in the scheduling phase — both scheduler stores are left exactly as
they were, and the outputs of the batch phase that ran earlier in the same
invocation are returned unchanged. -/
theorem c8_prop (env : Env) (w0 : List (String × String)) (c0 : List String)
    (args : Args) (r : MainResult) (hos : env.os = OSKind.other)
    (h : run_main env w0 c0 args = Except.ok r) :
    r.win_tasks = w0 ∧ r.crontab = c0 ∧
    LogEvent.warning "Unsupported operating system." ∈ r.logs ∧
    ∃ l, batch_phase env args = Except.ok (r.outputs, l) := by
  unfold run_main at h
  rw [hos] at h
  cases hb : batch_phase env args with
  | error e =>
    rw [hb] at h
    exact absurd h (by simp)
  | ok br =>
    rw [hb] at h
    simp only [Except.ok.injEq] at h
    subst h
    refine ⟨rfl, rfl, ?_, ⟨br.2, ?_⟩⟩
    · exact List.mem_append_right _ (List.mem_singleton.mpr rfl)
    · rfl

/-- C8, witness: a concrete scheduled invocation on an unrecognized OS
converts its one file, leaves both stores empty as they started, and logs
the unsupported-OS warning. -/
theorem c8_witness :
    (MainResult.mk ["/d/a.pdf"]
        [LogEvent.info ("Converted " ++ "/d/a.txt" ++ " → " ++ "/d/a.pdf"),
          LogEvent.warning "Unsupported operating system."] [] []).win_tasks = [] ∧
    (MainResult.mk ["/d/a.pdf"]
        [LogEvent.info ("Converted " ++ "/d/a.txt" ++ " → " ++ "/d/a.pdf"),
          LogEvent.warning "Unsupported operating system."] [] []).crontab = [] ∧
    LogEvent.warning "Unsupported operating system."
      ∈ (MainResult.mk ["/d/a.pdf"]
          [LogEvent.info ("Converted " ++ "/d/a.txt" ++ " → " ++ "/d/a.pdf"),
            LogEvent.warning "Unsupported operating system."] [] []).logs ∧
    ∃ l, batch_phase (Env.mk (some ["a.txt"]) (fun _ => true) OSKind.other "/s.py")
        (Args.mk "/d" ".txt" ".pdf" 5 TimeUnit.minute true)
      = Except.ok ((MainResult.mk ["/d/a.pdf"]
          [LogEvent.info ("Converted " ++ "/d/a.txt" ++ " → " ++ "/d/a.pdf"),
            LogEvent.warning "Unsupported operating system."] [] []).outputs, l) :=
  c8_prop (Env.mk (some ["a.txt"]) (fun _ => true) OSKind.other "/s.py") [] []
    (Args.mk "/d" ".txt" ".pdf" 5 TimeUnit.minute true) _ rfl rfl

theorem warnOf_cons (io : String → Bool) (dir target f : String) (fs : List String) :
    warnOf (run_batch io dir target (f :: fs))
      = ((convert_file io (dir ++ "/" ++ f) target).2.filter isWarn).length
        + warnOf (run_batch io dir target fs) := by
  unfold run_batch warnOf logsOf
  simp [List.filter_append]

theorem unsupportedCount_cons (dir target f : String) (fs : List String) :
    unsupportedCount dir target (f :: fs)
      = (if conversions_has (splitext (dir ++ "/" ++ f)).2 target then 0 else 1)
        + unsupportedCount dir target fs := by
  unfold unsupportedCount
  rw [List.filter_cons]
  cases h : conversions_has (splitext (dir ++ "/" ++ f)).2 target <;> simp [h] <;> omega

theorem outputsOf_cons (io : String → Bool) (dir target f : String) (fs : List String) :
    (outputsOf (run_batch io dir target (f :: fs))).length
      = (convert_file io (dir ++ "/" ++ f) target).1.length
        + (outputsOf (run_batch io dir target fs)).length := by
  unfold run_batch outputsOf
  simp

theorem warnOf_run_batch (io : String → Bool) (dir target : String) :
    ∀ files : List String,
      warnOf (run_batch io dir target files) = unsupportedCount dir target files := by
  intro files
  induction files with
  | nil => rfl
  | cons f fs ih =>
    rw [warnOf_cons, unsupportedCount_cons, convert_warn_length, ih]

theorem outputs_add_unsupported (io : String → Bool) (dir target : String) :
    ∀ files : List String,
      (∀ f ∈ files, conversions_has (splitext (dir ++ "/" ++ f)).2 target = true →
        io (dir ++ "/" ++ f) = true) →
      (outputsOf (run_batch io dir target files)).length
        + unsupportedCount dir target files = files.length := by
  intro files
  induction files with
  | nil => intro _; rfl
  | cons f fs ih =>
    intro hio
    have hrest : ∀ g ∈ fs, conversions_has (splitext (dir ++ "/" ++ g)).2 target = true →
        io (dir ++ "/" ++ g) = true :=
      fun g hg => hio g (List.mem_cons_of_mem f hg)
    have hsum := ih hrest
    rw [outputsOf_cons, unsupportedCount_cons]
    cases h : conversions_has (splitext (dir ++ "/" ++ f)).2 target
    · rw [convert_file_unsupported io (dir ++ "/" ++ f) target h]
      simp only [List.length_nil, List.length_cons, Bool.false_eq_true, if_false]
      omega
    · have h1 : (convert_file io (dir ++ "/" ++ f) target).1.length = 1 :=
        convert_out_length io (dir ++ "/" ++ f) target h
          (hio f (List.mem_cons_self f fs) h)
      rw [h1]
      simp only [List.length_cons, if_true, if_pos]
      omega

/-- C5: a batch over N matched files of which K have no registered
converter processes every file (one outcome per file, so no failure aborts
the rest — per-file failures are absorbed inside the converters), logs
exactly K unsupported-conversion warnings, and, when every supported file's
conversion I/O succeeds, produces exactly N − K output files. -/
theorem c5_prop (io : String → Bool) (dir target : String) (files : List String) :
    (run_batch io dir target files).length = files.length ∧
    warnOf (run_batch io dir target files) = unsupportedCount dir target files ∧
    ((∀ f ∈ files, conversions_has (splitext (dir ++ "/" ++ f)).2 target = true →
        io (dir ++ "/" ++ f) = true) →
      (outputsOf (run_batch io dir target files)).length
        = files.length - unsupportedCount dir target files) := by
  refine ⟨by simp [run_batch], warnOf_run_batch io dir target files, ?_⟩
  intro hio
  have hsum := outputs_add_unsupported io dir target files hio
  omega

/-- C5, witness: a two-file batch with one supported file (`a.txt`) and one
unsupported file (`b.md`) produces 2 − 1 outputs. -/
theorem c5_witness :
    (outputsOf (run_batch (fun _ => true) "/d" ".pdf" ["a.txt", "b.md"])).length
      = (["a.txt", "b.md"] : List String).length
        - unsupportedCount "/d" ".pdf" ["a.txt", "b.md"] :=
  (c5_prop (fun _ => true) "/d" ".pdf" ["a.txt", "b.md"]).2.2 (fun f hf hc => rfl)

end FileConv
